import Mathlib

/-!
Shallow embedding of the anonymous message-relay bot (`src/main.py`).

The program keeps three module-level dictionaries:
  `users_db    : {user_id: {"inbox_token": str, "name": str}}`
  `messages_db : {message_id: {"from": int, "to": int, "type": str}}`
  `reply_links : {user_id: target_id}`
and, per user, the python-telegram-bot `context.user_data` dictionary in
which the `/start` handler stores a `"target_id"` entry.

Python dictionaries are modelled as association lists with first-key-wins
lookup, in-place overwrite on assignment, and removal on `pop`.  Telegram
user and message identifiers are modelled as `Nat`, inbox tokens and
message payloads as `String`.  Python truthiness of an optional string
(`None` and `""` are falsy) and of an optional integer (`None` and `0`
are falsy) is modelled explicitly, because the source branches on it
(`message.text or message.caption or ""`, `if not target_id`,
`if recipient_id`).

Outbound transport calls (`context.bot.send_*`) are modelled by an
explicit oracle `transport : Send → Except Unit Nat` returning the
delivered copy's `message_id` or a failure; the `try`/`except` block of
`forward_message` becomes a `match` on that result.  Plain
`reply_text` / notification sends to the acting user are recorded as
`(chatId, text)` effects.
-/

namespace Chillax

/-- Association-list lookup with first-match semantics: Python `d.get(k)`. -/
def dictGet {α : Type} : List (Nat × α) → Nat → Option α
  | [], _ => none
  | e :: t, k => if e.1 = k then some e.2 else dictGet t k

/-- Association-list assignment: Python `d[k] = v` (overwrites the first
occurrence in place, appends when the key is absent). -/
def dictSet {α : Type} : List (Nat × α) → Nat → α → List (Nat × α)
  | [], k, v => [(k, v)]
  | e :: t, k, v => if e.1 = k then (k, v) :: t else e :: dictSet t k v

/-- Association-list removal: Python `d.pop(k, None)`. -/
def dictPop {α : Type} : List (Nat × α) → Nat → List (Nat × α)
  | [], _ => []
  | e :: t, k => if e.1 = k then t else e :: dictPop t k

/-- Keys are pairwise distinct, as they are in a Python dictionary. -/
def keysNodup {α : Type} (d : List (Nat × α)) : Prop :=
  (d.map Prod.fst).Nodup

/-- Python truthiness of an optional string: `None` and `""` are falsy. -/
def truthyStr : Option String → Bool
  | none => false
  | some s => !(s == "")

/-- Python `a or b` on optional integers: `None` and `0` are falsy. -/
def pyOrNat : Option Nat → Option Nat → Option Nat
  | some n, b => if n = 0 then b else some n
  | none, b => b

/-- A `users_db` value: `{"inbox_token": str, "name": str}`. -/
structure UserInfo where
  inbox_token : String
  name : String
deriving DecidableEq, Repr

/-- A `messages_db` value: `{"from": int, "to": int, "type": str}`.
`from` and `to` are Lean keywords, hence the field names `from_`, `to_`. -/
structure RelayRecord where
  from_ : Nat
  to_ : Nat
  type : String
deriving DecidableEq, Repr

/-- The whole mutable state of the program: the three module-level
dictionaries plus the per-user `context.user_data["target_id"]` entries
(collected into one map from user id to stored target). -/
structure BotState where
  users_db : List (Nat × UserInfo)
  messages_db : List (Nat × RelayRecord)
  reply_links : List (Nat × Nat)
  user_data : List (Nat × Nat)
deriving DecidableEq, Repr

/-- An outbound `context.bot.send_*` call to the transport, carrying the
destination chat id and the payload built in `forward_message`. -/
inductive Send where
  | message (chatId : Nat) (body : String)
  | photo (chatId : Nat) (fileId : String) (caption : String)
  | video (chatId : Nat) (fileId : String) (caption : String)
  | voice (chatId : Nat) (fileId : String) (caption : String)
  | sticker (chatId : Nat) (fileId : String)
  | animation (chatId : Nat) (fileId : String) (caption : String)
deriving DecidableEq, Repr

/-- The destination chat id of a send. -/
def Send.chat : Send → Nat
  | .message c _ => c
  | .photo c _ _ => c
  | .video c _ _ => c
  | .voice c _ _ => c
  | .sticker c _ => c
  | .animation c _ _ => c

/-- An inbound Telegram `Message` restricted to the attributes the source
reads: `text`, `caption`, `photo` (a list of sizes; the code takes
`photo[-1].file_id`), `video`, `voice`, `sticker`, `animation` (each
modelled by its `file_id`), and the reply-to reference
(`reply_to_message`), which the source never consults. -/
structure Message where
  text : Option String
  caption : Option String
  photo : List String
  video : Option String
  voice : Option String
  sticker : Option String
  animation : Option String
  replyTo : Option Nat
deriving DecidableEq, Repr

/-- Python `s.replace(old, new)` for a one-character `old` pattern: every
occurrence of the character is substituted.  (All four `.replace` calls of
line 100 have one-character patterns, so character-wise substitution is
exactly Python's behaviour there.)  Defined on the character list so that
it reduces inside the kernel. -/
def replaceChar (s : List Char) (c : Char) (r : List Char) : List Char :=
  match s with
  | [] => []
  | x :: xs => (if x = c then r else [x]) ++ replaceChar xs c r

/-- The backtick character, extracted from a string literal. -/
def backtickChar : Char := "`".front

/-- Line 100: `content.replace("_", "\\_").replace("*", "\\*")
.replace("[", "\\[").replace("`", "\\`")`. -/
def escapeMarkdown (content : String) : String :=
  String.mk
    (replaceChar
      (replaceChar
        (replaceChar
          (replaceChar content.data '_' ['\\', '_'])
          '*' ['\\', '*'])
        '[' ['\\', '['])
      backtickChar ['\\', backtickChar])

/-- Line 85: `content = message.text or message.caption or ""`. -/
def msgContent (m : Message) : String :=
  if truthyStr m.text then m.text.getD ""
  else if truthyStr m.caption then m.caption.getD ""
  else ""

/-- Lines 88-107: the `if`/`elif` chain of `forward_message` choosing
which `context.bot.send_*` call to make for the target user, `none` when
no branch matches (the `else` of line 108, unsupported content). -/
def chosen_send (to_user : Nat) (m : Message) : Option Send :=
  let content := msgContent m
  if truthyStr m.text then
    some (.message to_user ("📨 *Anonymous Message*\n\n" ++ content))
  else if !m.photo.isEmpty then
    some (.photo to_user (m.photo.getLastD "") ("📨 *Anonymous Photo*\n\n" ++ content))
  else if m.video.isSome then
    some (.video to_user (m.video.getD "") ("📨 *Anonymous Video*\n\n" ++ content))
  else if m.voice.isSome then
    some (.voice to_user (m.voice.getD "") ("📨 *Anonymous Voice*\n\n" ++ content))
  else if m.sticker.isSome then
    some (.sticker to_user (m.sticker.getD ""))
  else if m.animation.isSome then
    some (.animation to_user (m.animation.getD "")
      ("📨 *Anonymous GIF*\n\n" ++ escapeMarkdown content))
  else
    none

/-- Lines 132-138: `get_message_type`.  Note that the chain has no
`animation` case, so animations fall through to `"unknown"`. -/
def get_message_type (m : Message) : String :=
  if truthyStr m.text then "text"
  else if !m.photo.isEmpty then "photo"
  else if m.video.isSome then "video"
  else if m.voice.isSome then "voice"
  else if m.sticker.isSome then "sticker"
  else "unknown"

/-- Result of `forward_message`: the updated `messages_db`, the send (if
any) that was handed to the transport, and the notification messages sent
to the original sender. -/
structure FwdResult where
  db : List (Nat × RelayRecord)
  attempted : Option Send
  notices : List (Nat × String)
deriving DecidableEq, Repr

/-- Lines 83-118: `forward_message(context, from_user, to_user, message)`.
The `try` block's send to `to_user` goes through the `transport` oracle;
an `Except.error` outcome is the raised exception caught on line 116, upon
which the failure notice of line 118 goes to `from_user`.  On success the
relay record is stored (line 113) keyed by the delivered copy's
`message_id` and the success acknowledgment (line 114) goes to
`from_user`.  Unsupported content (line 108) sends only the rejection
notice to `from_user` and returns before any record is stored. -/
def forward_message (transport : Send → Except Unit Nat)
    (db : List (Nat × RelayRecord)) (from_user to_user : Nat) (m : Message) : FwdResult :=
  match chosen_send to_user m with
  | none =>
      { db := db, attempted := none,
        notices := [(from_user, "❌ Unsupported message type.")] }
  | some s =>
      match transport s with
      | .ok msgId =>
          { db := dictSet db msgId ⟨from_user, to_user, get_message_type m⟩,
            attempted := some s,
            notices := [(from_user, "✅ Message sent anonymously!")] }
      | .error _ =>
          { db := db, attempted := some s,
            notices := [(from_user, "❌ Failed to send. User may have blocked the bot.")] }

/-- Result of `handle_message`: the new state, the send (if any) handed to
the transport, and the notices produced. -/
structure HandleResult where
  state : BotState
  attempted : Option Send
  notices : List (Nat × String)
deriving DecidableEq, Repr

/-- Lines 65-80: `handle_message`.  Line 70 picks the target with
`context.user_data.get("target_id") or reply_links.get(user.id)`; a falsy
target yields the rejection of line 73; otherwise the message is forwarded
and lines 79-80 pop both the `user_data` entry and the `reply_links`
entry for the sender.  The reply-to reference of the message is never
consulted. -/
def handle_message (transport : Send → Except Unit Nat)
    (st : BotState) (sender : Nat) (m : Message) : HandleResult :=
  let target := pyOrNat (dictGet st.user_data sender) (dictGet st.reply_links sender)
  let reject : HandleResult :=
    { state := st, attempted := none,
      notices := [(sender, "❗ Please use someone's inbox link or a reply button to start an anonymous conversation.")] }
  match target with
  | none => reject
  | some t =>
      if t = 0 then reject
      else
        let fwd := forward_message transport st.messages_db sender t m
        { state := { st with messages_db := fwd.db,
                             user_data := dictPop st.user_data sender,
                             reply_links := dictPop st.reply_links sender },
          attempted := fwd.attempted,
          notices := fwd.notices }

/-- Lines 30-34 of `start`: register the user if absent.  The freshly
generated `str(uuid4())` token is passed in as `freshTok`; it is used only
when the user is not yet registered. -/
def ensure_user (db : List (Nat × UserInfo)) (uid : Nat) (fullName freshTok : String) :
    List (Nat × UserInfo) :=
  if dictGet db uid = none then dictSet db uid ⟨freshTok, fullName⟩ else db

/-- Line 39: `next((uid for uid, info in users_db.items() if
info["inbox_token"] == token), None)` — first user whose stored token
equals the presented one, exact string comparison. -/
def resolveToken (db : List (Nat × UserInfo)) (token : String) : Option Nat :=
  (db.find? (fun p => p.2.inbox_token == token)).map (·.1)

/-- Line 56: the inbox-link string for a registered user. -/
def inbox_link (db : List (Nat × UserInfo)) (uid : Nat) (botUsername : String) : String :=
  "https://t.me/" ++ botUsername ++ "?start=" ++
    (((dictGet db uid).map (·.inbox_token)).getD "")

/-- Lines 57-62: the default reply showing the caller their own link. -/
def own_link_text (db : List (Nat × UserInfo)) (uid : Nat) (botUsername : String) : String :=
  "🔐 *Your Anonymous Inbox*\n\nShare this link to receive messages:\n`" ++
    inbox_link db uid botUsername ++ "`\n\n⚠️ All messages will be *fully anonymous*"

/-- Lines 26-62: the `/start` handler.  Registers the caller, then: with a
presented argument whose token resolves to a (truthy) user id, either
reports the own-inbox notice (when it is the caller) or stores the pending
target in `context.user_data`; in every other case the caller is shown
their own inbox link. -/
def start (st : BotState) (uid : Nat) (fullName freshTok : String)
    (args : List String) (botUsername : String) : BotState × List (Nat × String) :=
  let db := ensure_user st.users_db uid fullName freshTok
  let st := { st with users_db := db }
  let defaultReply : BotState × List (Nat × String) :=
    (st, [(uid, own_link_text db uid botUsername)])
  match args with
  | [] => defaultReply
  | tok :: _ =>
      match resolveToken db tok with
      | none => defaultReply
      | some rid =>
          if rid = 0 then defaultReply
          else if rid = uid then
            (st, [(uid, "ℹ️ This is *your own* inbox link. Share it to receive anonymous messages.")])
          else
            ({ st with user_data := dictSet st.user_data uid rid },
             [(uid, "💬 Type your message below to send it!")])

/-- Python `s.split(sep)` for a one-character separator, on character
lists (kernel-computable): `"a_b".split("_") == ["a", "b"]`,
`"a__b".split("_") == ["a", "", "b"]`. -/
def splitOnChar (s : List Char) (c : Char) : List (List Char) :=
  match s with
  | [] => [[]]
  | x :: xs =>
      let r := splitOnChar xs c
      if x = c then [] :: r
      else
        match r with
        | [] => [[x]]
        | h :: t => (x :: h) :: t

/-- Python `int(s)` restricted to the plain decimal strings the bot itself
generates in `reply_{from_user}` payloads; any other string is modelled as
the parse failing. -/
def digitsToNat (l : List Char) : Option Nat :=
  if l ≠ [] ∧ l.all (·.isDigit) then
    some (l.foldl (fun acc c => acc * 10 + (c.toNat - 48)) 0)
  else none

/-- Lines 126-127: extract the target user id from a `reply_<id>` callback
payload.  (In the source, `int(query.data.split("_")[1])` is only reached
for payloads the bot itself generated as `reply_{from_user}`, so the
integer parse always succeeds; a non-parsing payload is modelled as
producing no action, matching the guard `query.data.startswith("reply_")`
plus the handler's `^reply_` pattern.) -/
def parse_reply_target (data : String) : Option Nat :=
  if "reply_".data.isPrefixOf data.data then
    digitsToNat ((splitOnChar data.data '_').getD 1 [])
  else none

/-- Lines 121-129: `reply_callback`.  A `reply_<id>` activation stores the
target in `reply_links[user.id]` and prompts for the reply text.  It never
touches `context.user_data`. -/
def reply_callback (st : BotState) (uid : Nat) (data : String) :
    BotState × List (Nat × String) :=
  match parse_reply_target data with
  | some t =>
      ({ st with reply_links := dictSet st.reply_links uid t },
       [(uid, "💬 Type your anonymous reply below:")])
  | none => (st, [])

/-- Line 149: the handler registered for the `cancel` callback is
`lambda u, c: u.answer()`.  It reads or writes no state at all (and, since
`Update` has no `answer` attribute, the call itself raises
`AttributeError`, so not even the callback acknowledgment happens).
Modelled as a pure no-op on the state producing no notices. -/
def cancel_callback (st : BotState) : BotState × List (Nat × String) :=
  (st, [])

/-! ### Helper lemmas about the dictionary model -/

theorem dictGet_dictSet {α : Type} (d : List (Nat × α)) (k : Nat) (v : α) :
    dictGet (dictSet d k v) k = some v := by
  induction d with
  | nil => simp [dictGet, dictSet]
  | cons e t ih =>
      by_cases h : e.1 = k
      · simp [dictGet, dictSet, h]
      · simp [dictGet, dictSet, h, ih]

theorem dictGet_eq_none_of_not_mem {α : Type} {d : List (Nat × α)} {k : Nat}
    (h : k ∉ d.map Prod.fst) : dictGet d k = none := by
  induction d with
  | nil => rfl
  | cons e t ih =>
      simp only [List.map_cons, List.mem_cons, not_or] at h
      simp [dictGet, Ne.symm h.1, ih h.2]

theorem dictGet_dictPop_self {α : Type} {d : List (Nat × α)} (k : Nat)
    (h : keysNodup d) : dictGet (dictPop d k) k = none := by
  induction d with
  | nil => rfl
  | cons e t ih =>
      simp only [keysNodup, List.map_cons, List.nodup_cons] at h
      by_cases he : e.1 = k
      · simp only [dictPop, he, if_pos]
        exact dictGet_eq_none_of_not_mem (he ▸ h.1)
      · simp [dictPop, he, dictGet, ih h.2]

theorem mem_of_dictGet {α : Type} {d : List (Nat × α)} {k : Nat} {v : α}
    (h : dictGet d k = some v) : (k, v) ∈ d := by
  induction d with
  | nil => simp [dictGet] at h
  | cons e t ih =>
      obtain ⟨a, b⟩ := e
      by_cases he : a = k
      · subst he
        simp only [dictGet, if_pos, Option.some.injEq] at h
        subst h
        exact List.mem_cons_self _ _
      · simp only [dictGet, he, if_false, ite_false] at h
        exact List.mem_cons_of_mem _ (ih (by simpa [he] using h))

theorem dictSet_of_get_none {α : Type} {d : List (Nat × α)} {k : Nat}
    (h : dictGet d k = none) (v : α) : dictSet d k v = d ++ [(k, v)] := by
  induction d with
  | nil => simp [dictSet]
  | cons e t ih =>
      by_cases he : e.1 = k
      · simp [dictGet, he] at h
      · simp only [dictGet, he, ite_false] at h
        simp [dictSet, he, ih (by simpa [he] using h)]

theorem dictGet_append_none {α : Type} {l₁ : List (Nat × α)} (l₂ : List (Nat × α))
    {k : Nat} (h : dictGet l₁ k = none) :
    dictGet (l₁ ++ l₂) k = dictGet l₂ k := by
  induction l₁ with
  | nil => simp
  | cons e t ih =>
      by_cases he : e.1 = k
      · simp [dictGet, he] at h
      · simp only [dictGet, he, ite_false] at h
        simp [dictGet, he, ih (by simpa [he] using h)]

theorem find?_append_none {α : Type} {l₁ : List α} (l₂ : List α) {p : α → Bool}
    (h : l₁.find? p = none) : (l₁ ++ l₂).find? p = l₂.find? p := by
  induction l₁ with
  | nil => simp
  | cons e t ih =>
      rw [List.find?] at h
      by_cases he : p e
      · simp [he] at h
      · simp only [he] at h
        rw [List.cons_append, List.find?]
        simp only [he]
        exact ih (by simpa using h)

theorem find?_eq_of_unique {α : Type} {l : List α} {q : α → Bool} {e : α}
    (he : e ∈ l) (hq : q e = true) (huniq : ∀ x ∈ l, q x = true → x = e) :
    l.find? q = some e := by
  induction l with
  | nil => simp at he
  | cons a t ih =>
      by_cases ha : q a
      · have : a = e := huniq a (List.mem_cons_self _ _) ha
        rw [List.find?, ha]
        exact congrArg some this
      · rw [List.find?]
        simp only [ha]
        have he' : e ∈ t := by
          rcases List.mem_cons.mp he with h | h
          · exact absurd (h ▸ hq) (by simpa using ha)
          · exact h
        exact ih he' (fun x hx hqx => huniq x (List.mem_cons_of_mem _ hx) hqx)

/-! ### Concrete message fixtures used in closed evaluations -/

/-- A plain text message `"hi"`. -/
def mText : Message :=
  { text := some "hi", caption := none, photo := [], video := none,
    voice := none, sticker := none, animation := none, replyTo := none }

/-- A message carrying none of the recognized content attributes (for
example a document, contact or location update): unsupported content. -/
def mUnsupported : Message :=
  { text := none, caption := none, photo := [], video := none,
    voice := none, sticker := none, animation := none, replyTo := none }

/-- An animation-only message. -/
def mAnimation : Message :=
  { text := none, caption := none, photo := [], video := none,
    voice := none, sticker := none, animation := some "gif1", replyTo := none }

/-! ### Claim C1 -/

/-- Claim C1 is false on the code: `messages_db` is written but never read,
so a reply to a previously relayed message is not resolved through the
relay directory.  Concretely: relay record `100 ↦ (from=20, to=1)` exists
and sender `1` replies to message `100` while holding pending target `10`;
the claim says the message is routed to `20` (the other party) with the
sender's conversation state untouched, but the code routes it to the
pending target `10` and consumes the conversation state. -/
theorem C1_counterexample :
    (handle_message (fun _ => .ok 55)
        { users_db := [], messages_db := [(100, ⟨20, 1, "text"⟩)],
          reply_links := [], user_data := [(1, 10)] }
        1 { mText with replyTo := some 100 }).attempted =
      some (.message 10 "📨 *Anonymous Message*\n\nhi") ∧
    dictGet (handle_message (fun _ => .ok 55)
        { users_db := [], messages_db := [(100, ⟨20, 1, "text"⟩)],
          reply_links := [], user_data := [(1, 10)] }
        1 { mText with replyTo := some 100 }).state.user_data 1 = none := by
  decide

/-- Claim C1, amended: the routing engine performs no reply-chain
resolution at all — the reply-to reference of an inbound message is
ignored and the relay directory is never consulted for routing.  A message
is routed to the sender's link-set pending target (`context.user_data`)
when that is set (this, not the reply chain, is what takes precedence),
and the conversation state is consumed: after the forwarding attempt both
the link-set target and the reply-control target of the sender are
cleared. -/
theorem C1_no_reply_resolution (transport : Send → Except Unit Nat)
    (st : BotState) (sender : Nat) (m : Message) (r : Option Nat) :
    handle_message transport st sender { m with replyTo := r } =
      handle_message transport st sender m ∧
    (∀ t, dictGet st.user_data sender = some t → t ≠ 0 →
      (handle_message transport st sender m).attempted =
        (forward_message transport st.messages_db sender t m).attempted) ∧
    (∀ t, dictGet st.user_data sender = some t → t ≠ 0 →
      keysNodup st.user_data → keysNodup st.reply_links →
      dictGet (handle_message transport st sender m).state.user_data sender = none ∧
      dictGet (handle_message transport st sender m).state.reply_links sender = none) := by
  refine ⟨?_, ?_, ?_⟩
  · cases m; rfl
  · intro t h ht
    simp [handle_message, h, pyOrNat, ht]
  · intro t h ht h1 h2
    simp only [handle_message, h, pyOrNat, ht, if_neg]
    simp [ht]
    exact ⟨dictGet_dictPop_self _ h1, dictGet_dictPop_self _ h2⟩

/-- Witness for `C1_no_reply_resolution` at a concrete state: sender `1`
with pending target `10`, a plain text message. -/
theorem C1_no_reply_resolution_witness :
    dictGet (handle_message (fun _ => Except.ok 55)
        ⟨[], [], [], [(1, 10)]⟩ 1 mText).state.user_data 1 = none ∧
    dictGet (handle_message (fun _ => Except.ok 55)
        ⟨[], [], [], [(1, 10)]⟩ 1 mText).state.reply_links 1 = none :=
  (C1_no_reply_resolution (fun _ => Except.ok 55) ⟨[], [], [], [(1, 10)]⟩ 1 mText none).2.2
    10 (by decide) (by decide) (by unfold keysNodup; decide) (by unfold keysNodup; decide)

/-! ### Claim C2 -/

/-- Claim C2 is false on the code: there are two independent pending-target
slots, not one.  Concretely: sender `1` first opens user `10`'s inbox link
(link slot set to `10`), then activates the reply control for user `20`
(reply slot set to `20`, the most recently set target); the claim says the
next message goes to `20`, but the code routes it to `10`, because
`handle_message` consults `context.user_data` before `reply_links`. -/
theorem C2_counterexample :
    dictGet ((reply_callback ⟨[], [], [], [(1, 10)]⟩ 1 "reply_20").1).reply_links 1 =
      some 20 ∧
    (handle_message (fun _ => .ok 55)
        ((reply_callback ⟨[], [], [], [(1, 10)]⟩ 1 "reply_20").1) 1 mText).attempted =
      some (.message 10 "📨 *Anonymous Message*\n\nhi") := by
  decide

/-- Claim C2, amended: each of the two setting mechanisms keeps at most
one pending target per sender in its own slot and overwrites that slot's
prior value, but the slots are independent: activating a reply control
writes only `reply_links` (leaving a link-set target in place), opening an
inbox link writes only `context.user_data`, and the sender's next message
is routed to the link-set target whenever one is set — even when the
reply-control target was set more recently. -/
theorem C2_two_pending_slots (st : BotState) (u t : Nat) (d : String)
    (hd : parse_reply_target d = some t) :
    (reply_callback st u d).1 =
      { st with reply_links := dictSet st.reply_links u t } ∧
    dictGet (dictSet st.reply_links u t) u = some t ∧
    (∀ rid, dictGet (dictSet st.user_data u rid) u = some rid) ∧
    (∀ t', dictGet st.user_data u = some t' → t' ≠ 0 →
      pyOrNat (dictGet st.user_data u) (dictGet st.reply_links u) = some t') ∧
    (∀ (fullName freshTok tok botUsername : String) (rest : List String) (rid : Nat),
      resolveToken (ensure_user st.users_db u fullName freshTok) tok = some rid →
      rid ≠ 0 → rid ≠ u →
      (start st u fullName freshTok (tok :: rest) botUsername).1 =
        { st with users_db := ensure_user st.users_db u fullName freshTok,
                  user_data := dictSet st.user_data u rid }) := by
  refine ⟨by simp [reply_callback, hd], dictGet_dictSet _ _ _,
    fun rid => dictGet_dictSet _ _ _, fun t' h ht => by simp [pyOrNat, h, ht],
    fun fullName freshTok tok botUsername rest rid hres h0 hne => by
      simp [start, hres, h0, hne]⟩

/-- Witness for `C2_two_pending_slots` at payload `"reply_20"`, with the
inbox-link conjunct exercised on a registry holding user `2` with token
`"t2"`: caller `1` opens user `2`'s link while holding a link-set target
`10`. -/
theorem C2_two_pending_slots_witness :
    (reply_callback ⟨[(2, ⟨"t2", "B"⟩)], [], [], [(1, 10)]⟩ 1 "reply_20").1 =
      { users_db := [(2, ⟨"t2", "B"⟩)], messages_db := [],
        reply_links := dictSet [] 1 20, user_data := [(1, 10)] } ∧
    dictGet (dictSet ([] : List (Nat × Nat)) 1 20) 1 = some 20 ∧
    (start ⟨[(2, ⟨"t2", "B"⟩)], [], [], [(1, 10)]⟩ 1 "A" "fresh" ["t2"] "bot").1 =
      { users_db := ensure_user [(2, ⟨"t2", "B"⟩)] 1 "A" "fresh", messages_db := [],
        reply_links := [], user_data := dictSet [(1, 10)] 1 2 } :=
  ⟨(C2_two_pending_slots ⟨[(2, ⟨"t2", "B"⟩)], [], [], [(1, 10)]⟩ 1 20 "reply_20"
      (by decide)).1,
   (C2_two_pending_slots ⟨[(2, ⟨"t2", "B"⟩)], [], [], [(1, 10)]⟩ 1 20 "reply_20"
      (by decide)).2.1,
   (C2_two_pending_slots ⟨[(2, ⟨"t2", "B"⟩)], [], [], [(1, 10)]⟩ 1 20 "reply_20"
      (by decide)).2.2.2.2 "A" "fresh" "t2" "bot" [] 2 (by decide) (by decide) (by decide)⟩

/-! ### Claim C3 -/

/-- Claim C3 describes a code bug: the handler registered for the `cancel`
callback (line 149) is `lambda u, c: u.answer()` — it clears nothing and
creates nothing, and since `Update` has no `answer` attribute the call
itself raises, so not even the acknowledgment reaches the user.  The
theorem evaluates the model at the failing input: a user with pending
target `10` activates the cancellation control and the pending target is
still set afterwards, with no acknowledgment produced.  (It is true that
no relay record is created and no forwarding is triggered.) -/
theorem C3_cancel_clears_nothing :
    (∀ st : BotState, cancel_callback st = (st, [])) ∧
    dictGet (cancel_callback ⟨[], [], [], [(1, 10)]⟩).1.user_data 1 = some 10 :=
  ⟨fun _ => rfl, by decide⟩

/-! ### Claim C4 -/

/-- Claim C4 is false on the code: recording a relay entry whose
delivered-message identifier is already present is neither rejected nor
logged — line 113 is a plain dictionary assignment.  Concretely: with an
existing record `100 ↦ (from=7, to=8)`, a successful forward whose
delivered copy also gets identifier `100` silently replaces the record
with `(from=1, to=2)` and acknowledges success. -/
theorem C4_counterexample :
    (forward_message (fun _ => .ok 100) [(100, ⟨7, 8, "text"⟩)] 1 2 mText).db =
      [(100, ⟨1, 2, "text"⟩)] ∧
    (forward_message (fun _ => .ok 100) [(100, ⟨7, 8, "text"⟩)] 1 2 mText).notices =
      [(1, "✅ Message sent anonymously!")] := by
  decide

/-- Claim C4, amended: recording a relay entry whose delivered-message
identifier is already present silently overwrites the existing record in
place; there is no rejection and no logging. -/
theorem C4_record_overwrites (transport : Send → Except Unit Nat)
    (db : List (Nat × RelayRecord)) (a b mid : Nat) (m : Message) (s : Send)
    (hs : chosen_send b m = some s) (hok : transport s = .ok mid) :
    (forward_message transport db a b m).db =
      dictSet db mid ⟨a, b, get_message_type m⟩ ∧
    ∀ v : RelayRecord, dictGet (dictSet db mid v) mid = some v := by
  exact ⟨by simp [forward_message, hs, hok], fun v => dictGet_dictSet _ _ _⟩

/-- Witness for `C4_record_overwrites`: delivered-copy identifier `100`
collides with an existing record and replaces it. -/
theorem C4_record_overwrites_witness :
    (forward_message (fun _ => Except.ok 100) [(100, ⟨7, 8, "text"⟩)] 1 2 mText).db =
      dictSet [(100, ⟨7, 8, "text"⟩)] 100 ⟨1, 2, get_message_type mText⟩ :=
  (C4_record_overwrites (fun _ => Except.ok 100) [(100, ⟨7, 8, "text"⟩)] 1 2 100 mText
    (Send.message 2 "📨 *Anonymous Message*\n\nhi") (by decide) rfl).1

/-! ### Claim C7 -/

/-- Claim C7: on transport failure during forwarding the exception is
caught inside `forward_message` (the `except` of line 116), which returns
normally — so the failure cannot propagate into the routing flow; the
sender receives the delivery-failure notice and the relay directory is
unchanged (no record is created). -/
theorem C7_delivery_failure_boundary (transport : Send → Except Unit Nat)
    (db : List (Nat × RelayRecord)) (a b : Nat) (m : Message) (s : Send)
    (hs : chosen_send b m = some s) (hfail : transport s = .error ()) :
    forward_message transport db a b m =
      { db := db, attempted := some s,
        notices := [(a, "❌ Failed to send. User may have blocked the bot.")] } := by
  simp [forward_message, hs, hfail]

/-- Witness for `C7_delivery_failure_boundary`: a transport that always
fails, a text message from `1` to `2`. -/
theorem C7_delivery_failure_boundary_witness :
    forward_message (fun _ => Except.error ()) [] 1 2 mText =
      { db := [], attempted := some (Send.message 2 "📨 *Anonymous Message*\n\nhi"),
        notices := [(1, "❌ Failed to send. User may have blocked the bot.")] } :=
  C7_delivery_failure_boundary (fun _ => Except.error ()) [] 1 2 mText
    (Send.message 2 "📨 *Anonymous Message*\n\nhi") (by decide) rfl

/-! ### Claim C5 -/

/-- Claim C5 is false on the code: after an unsupported-content rejection
the sender's pending target is not unchanged — it is cleared.
Concretely: sender `1` holds pending target `10` and sends unsupported
content; only the sender is notified and no record is created, but
afterwards the pending target is gone (`handle_message` pops the
conversation state unconditionally after `forward_message` returns). -/
theorem C5_counterexample :
    dictGet ((⟨[], [], [], [(1, 10)]⟩ : BotState)).user_data 1 = some 10 ∧
    (handle_message (fun _ => .ok 55)
        ⟨[], [], [], [(1, 10)]⟩ 1 mUnsupported).notices =
      [(1, "❌ Unsupported message type.")] ∧
    (handle_message (fun _ => .ok 55)
        ⟨[], [], [], [(1, 10)]⟩ 1 mUnsupported).attempted = none ∧
    dictGet (handle_message (fun _ => .ok 55)
        ⟨[], [], [], [(1, 10)]⟩ 1 mUnsupported).state.user_data 1 = none := by
  decide

/-- Claim C5, amended: for an InputRejected outcome only the initiating
user is notified and no relay record is created; a no-destination
rejection leaves all state unchanged, but an unsupported-content
rejection consumes (clears) the sender's pending target, because the
conversation state is popped unconditionally after the forwarding
attempt. -/
theorem C5_unsupported_consumes_pending (transport : Send → Except Unit Nat)
    (st : BotState) (u t : Nat) (m : Message)
    (hm : chosen_send t m = none) (h : dictGet st.user_data u = some t)
    (ht : t ≠ 0) (hnd : keysNodup st.user_data) :
    (handle_message transport st u m).attempted = none ∧
    (handle_message transport st u m).notices =
      [(u, "❌ Unsupported message type.")] ∧
    (handle_message transport st u m).state.messages_db = st.messages_db ∧
    dictGet (handle_message transport st u m).state.user_data u = none ∧
    (∀ (st' : BotState) (u' : Nat) (m' : Message),
      pyOrNat (dictGet st'.user_data u') (dictGet st'.reply_links u') = none →
      handle_message transport st' u' m' =
        { state := st', attempted := none,
          notices := [(u', "❗ Please use someone's inbox link or a reply button to start an anonymous conversation.")] }) := by
  refine ⟨?_, ?_, ?_, ?_, ?_⟩
  · simp [handle_message, h, pyOrNat, ht, forward_message, hm]
  · simp [handle_message, h, pyOrNat, ht, forward_message, hm]
  · simp [handle_message, h, pyOrNat, ht, forward_message, hm]
  · simp only [handle_message, h, pyOrNat, ht, if_neg]
    simp [ht]
    exact dictGet_dictPop_self _ hnd
  · intro st' u' m' hpy
    simp [handle_message, hpy]

/-- Witness for `C5_unsupported_consumes_pending`: sender `1` with pending
target `10` sends a message with no recognized content attribute. -/
theorem C5_unsupported_consumes_pending_witness :
    (handle_message (fun _ => Except.ok 55)
        ⟨[], [], [], [(1, 10)]⟩ 1 mUnsupported).attempted = none :=
  (C5_unsupported_consumes_pending (fun _ => Except.ok 55) ⟨[], [], [], [(1, 10)]⟩
    1 10 mUnsupported (by decide) (by decide) (by decide)
    (by unfold keysNodup; decide)).1

/-! ### Claim C6 -/

/-- Claim C6 is false on the code: an animation message is forwarded (it
is a supported kind, line 98), but the relay record stored for it carries
kind `"unknown"`, not the classified kind, because `get_message_type`
(lines 132-138) has no animation case; the classifier's fallback label is
also `"unknown"`, not `"unsupported"`. -/
theorem C6_counterexample :
    (forward_message (fun _ => .ok 300) ([] : List (Nat × RelayRecord)) 1 2 mAnimation).db =
      [(300, ⟨1, 2, "unknown"⟩)] ∧
    (forward_message (fun _ => .ok 300) ([] : List (Nat × RelayRecord)) 1 2 mAnimation).attempted =
      some (.animation 2 "gif1" "📨 *Anonymous GIF*\n\n") ∧
    get_message_type mAnimation ≠ "animation" := by
  decide

/-- Claim C6, amended: forwarding classifies content into the six
supported kinds text, photo, video, voice, sticker and animation/GIF —
anything else is unsupported and is rejected back to the sender without
contacting the recipient and without creating a relay record; the relay
record stored on successful forwarding carries the kind computed by
`get_message_type`, which labels the five kinds other than animation
correctly but has no animation case, so a forwarded animation is recorded
with kind `"unknown"` (the fallback label, which is also the label for
anything unclassified). -/
theorem C6_kind_classification (transport : Send → Except Unit Nat)
    (db : List (Nat × RelayRecord)) (a b mid : Nat) (m : Message) (s : Send) :
    (chosen_send b m = none ↔
      (truthyStr m.text || !m.photo.isEmpty || m.video.isSome ||
       m.voice.isSome || m.sticker.isSome || m.animation.isSome) = false) ∧
    (chosen_send b m = none →
      forward_message transport db a b m =
        { db := db, attempted := none,
          notices := [(a, "❌ Unsupported message type.")] }) ∧
    (chosen_send b m = some s → transport s = .ok mid →
      dictGet (forward_message transport db a b m).db mid =
        some ⟨a, b, get_message_type m⟩) ∧
    (m.animation.isSome = true → truthyStr m.text = false →
      m.photo.isEmpty = true → m.video.isSome = false →
      m.voice.isSome = false → m.sticker.isSome = false →
      get_message_type m = "unknown") := by
  refine ⟨?_, ?_, ?_, ?_⟩
  · simp only [chosen_send]
    split_ifs <;> simp_all
  · intro hm
    simp [forward_message, hm]
  · intro hs hok
    simp [forward_message, hs, hok, dictGet_dictSet]
  · intro _ h1 h2 h3 h4 h5
    simp [get_message_type, h1, h2, h3, h4, h5]

/-- Witness for `C6_kind_classification`: the record stored for a
successfully forwarded animation message. -/
theorem C6_kind_classification_witness :
    dictGet (forward_message (fun _ => Except.ok 300)
        ([] : List (Nat × RelayRecord)) 1 2 mAnimation).db 300 =
      some ⟨1, 2, get_message_type mAnimation⟩ :=
  (C6_kind_classification (fun _ => Except.ok 300) [] 1 2 300 mAnimation
    (Send.animation 2 "gif1" "📨 *Anonymous GIF*\n\n")).2.2.1 (by decide) rfl

/-! ### Claim C8 -/

/-- Claim C8: for every user, resolving the token issued by registration
yields that user's identifier, and token lookup is exact string match.
The hypotheses reflect the transport-level guarantees the source relies
on: stored tokens are pairwise distinct (each is a fresh `uuid4`), and the
fresh token handed to registration does not collide with a stored one. -/
theorem C8_token_roundtrip (db : List (Nat × UserInfo)) (uid : Nat)
    (fullName freshTok : String)
    (htok : db.Pairwise (fun a b => a.2.inbox_token ≠ b.2.inbox_token))
    (hfresh : ∀ e ∈ db, e.2.inbox_token ≠ freshTok) :
    (∃ info, dictGet (ensure_user db uid fullName freshTok) uid = some info ∧
      resolveToken (ensure_user db uid fullName freshTok) info.inbox_token = some uid) ∧
    (∀ (tok : String) (u : Nat), resolveToken db tok = some u →
      ∃ info2, (u, info2) ∈ db ∧ info2.inbox_token = tok) := by
  constructor
  · by_cases hreg : dictGet db uid = none
    · refine ⟨⟨freshTok, fullName⟩, ?_, ?_⟩
      · rw [ensure_user, if_pos hreg, dictSet_of_get_none hreg,
          dictGet_append_none _ hreg]
        simp [dictGet]
      · rw [ensure_user, if_pos hreg, dictSet_of_get_none hreg, resolveToken,
          find?_append_none _ (List.find?_eq_none.mpr
            (fun x hx => by simpa using hfresh x hx))]
        simp [List.find?]
    · obtain ⟨info, hinfo⟩ := Option.ne_none_iff_exists'.mp hreg
      refine ⟨info, ?_, ?_⟩
      · rw [ensure_user, if_neg hreg]; exact hinfo
      · rw [ensure_user, if_neg hreg, resolveToken]
        have hmem : (uid, info) ∈ db := mem_of_dictGet hinfo
        have huniq : ∀ x ∈ db,
            (x.2.inbox_token == info.inbox_token) = true → x = (uid, info) := by
          intro x hx hqx
          by_contra hne
          exact htok.forall (fun p q hpq => Ne.symm hpq) hx hmem hne
            (beq_iff_eq.mp hqx)
        rw [find?_eq_of_unique hmem (by simp) huniq]
        rfl
  · intro tok u h
    rw [resolveToken] at h
    obtain ⟨e, he, h1⟩ := Option.map_eq_some'.mp h
    obtain ⟨e1, e2⟩ := e
    have hq := List.find?_some he
    have hmem := List.mem_of_find?_eq_some he
    exact ⟨e2, by simpa [← h1] using hmem, beq_iff_eq.mp hq⟩

/-- Witness for `C8_token_roundtrip`: a registry holding user `5` with
token `"tokA"`, registering the new user `7` with fresh token `"tokB"`. -/
theorem C8_token_roundtrip_witness :
    ∃ info, dictGet (ensure_user [(5, ⟨"tokA", "Alice"⟩)] 7 "Bob" "tokB") 7 = some info ∧
      resolveToken (ensure_user [(5, ⟨"tokA", "Alice"⟩)] 7 "Bob" "tokB")
        info.inbox_token = some 7 :=
  (C8_token_roundtrip [(5, ⟨"tokA", "Alice"⟩)] 7 "Bob" "tokB"
    (List.pairwise_singleton _ _) (by decide)).1

/-! ### Claim C9 -/

/-- Claim C9: when the user resolved from a presented inbox token is the
presenting sender, no pending target is set, the sender receives only the
own-inbox-link notice, and nothing else happens (the state other than the
registration step is untouched).  The hypothesis `uid ≠ 0` reflects that
Telegram user identifiers are truthy (`if recipient_id:` on line 41). -/
theorem C9_self_link_guard (st : BotState) (uid : Nat)
    (fullName freshTok tok : String) (rest : List String) (botUsername : String)
    (h : resolveToken (ensure_user st.users_db uid fullName freshTok) tok = some uid)
    (h0 : uid ≠ 0) :
    start st uid fullName freshTok (tok :: rest) botUsername =
      ({ st with users_db := ensure_user st.users_db uid fullName freshTok },
       [(uid, "ℹ️ This is *your own* inbox link. Share it to receive anonymous messages.")]) := by
  simp [start, h, h0]

/-- Witness for `C9_self_link_guard`: registered user `1` presents their
own token `"t1"`. -/
theorem C9_self_link_guard_witness :
    start ⟨[(1, ⟨"t1", "A"⟩)], [], [], []⟩ 1 "A" "fresh" ["t1"] "bot" =
      ({ users_db := ensure_user [(1, ⟨"t1", "A"⟩)] 1 "A" "fresh",
         messages_db := [], reply_links := [], user_data := [] },
       [(1, "ℹ️ This is *your own* inbox link. Share it to receive anonymous messages.")]) :=
  C9_self_link_guard ⟨[(1, ⟨"t1", "A"⟩)], [], [], []⟩ 1 "A" "fresh" "t1" [] "bot"
    (by decide) (by decide)

/-! ### Claim C10 -/

/-- Claim C10: a start token that resolves to no registered user is not an
error — the handler falls through to the default branch, showing the
caller their own inbox link, and no pending target is set for the
caller. -/
theorem C10_unknown_token_falls_through (st : BotState) (uid : Nat)
    (fullName freshTok tok : String) (rest : List String) (botUsername : String)
    (h : resolveToken (ensure_user st.users_db uid fullName freshTok) tok = none) :
    start st uid fullName freshTok (tok :: rest) botUsername =
      ({ st with users_db := ensure_user st.users_db uid fullName freshTok },
       [(uid, own_link_text (ensure_user st.users_db uid fullName freshTok) uid botUsername)]) ∧
    dictGet (start st uid fullName freshTok (tok :: rest) botUsername).1.user_data uid =
      dictGet st.user_data uid := by
  have h1 : start st uid fullName freshTok (tok :: rest) botUsername =
      ({ st with users_db := ensure_user st.users_db uid fullName freshTok },
       [(uid, own_link_text (ensure_user st.users_db uid fullName freshTok) uid botUsername)]) := by
    simp [start, h]
  exact ⟨h1, by rw [h1]⟩

/-- Witness for `C10_unknown_token_falls_through`: fresh caller `1`
presents the unknown token `"zzz"`. -/
theorem C10_unknown_token_falls_through_witness :
    start ⟨[], [], [], []⟩ 1 "A" "fresh" ["zzz"] "bot" =
      ({ users_db := ensure_user [] 1 "A" "fresh",
         messages_db := [], reply_links := [], user_data := [] },
       [(1, own_link_text (ensure_user [] 1 "A" "fresh") 1 "bot")]) ∧
    dictGet (start ⟨[], [], [], []⟩ 1 "A" "fresh" ["zzz"] "bot").1.user_data 1 =
      dictGet ([] : List (Nat × Nat)) 1 :=
  C10_unknown_token_falls_through ⟨[], [], [], []⟩ 1 "A" "fresh" "zzz" [] "bot" (by decide)

end Chillax
